import Mathlib

/-!
Verification of the drawbridge synchronization relay.

Shallow embedding of:
  * `src/src/App.jsx`      — the browser client (`sceneFingerprint`, the
    WebSocket `onmessage` handler, the debounced `sendUpdate`);
  * `src/unnamed/part_000` — the relay server (`readCanvas`, `writeCanvas`,
    `broadcast`, the export-PNG single-slot handshake, the file watcher,
    the WebSocket connection/message handlers, the REST handlers);
  * `src/cli/index.js`     — the CLI (`update` and `delete` commands).

Machine integers in the source are JavaScript numbers used only as
counters, version numbers and timestamps; they are modelled as `Nat`.
JavaScript objects are modelled as structures carrying exactly the fields
the relay reads; fields that may be absent (`version`, `updated`,
`versionNonce`) are `Option Nat`, with `el.version || 0` rendered as
`(el.version).getD 0`.
-/

namespace Drawbridge

/-- An Excalidraw element, restricted to the fields the relay, the client
fingerprint, and the CLI `update`/`delete` commands actually read or write
(`id`, `version`, `isDeleted`, `versionNonce`, `updated`).  All other
fields are passed through opaquely and are irrelevant to the claims. -/
structure Element where
  id : String
  version : Option Nat
  isDeleted : Bool
  versionNonce : Option Nat
  updated : Option Nat
deriving Repr, DecidableEq

/-- The persisted canvas document (`type`, `version` = schemaVersion,
`elements`, `appState.viewBackgroundColor`, `files`).  `appState` and
`files` are opaque to the relay; `files` is modelled as an association
list of attachment id to payload reference. -/
structure Document where
  type : String
  version : Nat
  elements : List Element
  viewBackgroundColor : String
  files : List (String × String)
deriving Repr, DecidableEq

/-- `DEFAULT_CANVAS` from the server: the empty default document. -/
def DEFAULT_CANVAS : Document :=
  { type := "excalidraw"
    version := 2
    elements := []
    viewBackgroundColor := "#ffffff"
    files := [] }

/-- `sceneFingerprint(elements)` from `src/src/App.jsx` lines 16–27:
returns "0:0" for a missing or empty array, otherwise counts the
non-deleted elements and sums their `version || 0`, and renders the pair
as the string `count ++ ":" ++ vSum`. -/
def sceneFingerprint (elements : List Element) : String :=
  if elements.length = 0 then "0:0"
  else
    let r : Nat × Nat :=
      elements.foldl
        (fun acc el =>
          if !el.isDeleted then (acc.1 + 1, acc.2 + (el.version).getD 0)
          else acc)
        (0, 0)
    toString r.1 ++ ":" ++ toString r.2

/-- The active elements of a sequence: those with `isDeleted` false. -/
def activeElements (elements : List Element) : List Element :=
  elements.filter (fun el => !el.isDeleted)

/-- The claim's `activeCount`: number of elements with `isDeleted` false. -/
def activeCount (elements : List Element) : Nat :=
  (activeElements elements).length

/-- The claim's `versionSum`: sum of `version` (missing counted as 0) over
the active elements. -/
def versionSum (elements : List Element) : Nat :=
  ((activeElements elements).map (fun el => (el.version).getD 0)).sum

/-- The string rendering of a `(count, sum)` fingerprint pair that
`sceneFingerprint` produces. -/
def fpString (count vSum : Nat) : String :=
  toString count ++ ":" ++ toString vSum

/-- The `(isDeleted, version)` projection of an element sequence — the only
data `sceneFingerprint` reads. -/
def fpData (elements : List Element) : List (Bool × Option Nat) :=
  elements.map (fun el => (el.isDeleted, el.version))

/-! ## Messages and the browser client (src/src/App.jsx) -/

/-- The two push-channel message kinds the system exchanges
(`{type:"scene-update", data}` and `{type:"export-request"}`). -/
inductive Msg
  | sceneUpdate (d : Document)
  | exportRequest
deriving Repr, DecidableEq

/-- The client state relevant to echo suppression: the
`lastRemoteFingerprint` ref (initialised to "0:0"), whether the WebSocket
is open (`ws.readyState === WebSocket.OPEN`), and whether `excalidrawAPI`
has been set (non-null). -/
structure ClientState where
  lastRemoteFingerprint : String
  wsOpen : Bool
  apiReady : Bool
deriving Repr, DecidableEq

/-- The client's `ws.onmessage` handler (App.jsx lines 82–104): on a
`scene-update`, when `excalidrawAPI` is set, it records
`sceneFingerprint` of the incoming elements (so `onChange` can ignore the
echo) and calls `updateScene`; an `export-request` triggers the PNG export
side effect and changes no client sync state. -/
def onmessage (st : ClientState) (m : Msg) : ClientState :=
  match m with
  | Msg.sceneUpdate d =>
      if st.apiReady then
        { st with lastRemoteFingerprint := sceneFingerprint d.elements }
      else st
  | Msg.exportRequest => st

/-- The client's debounced `sendUpdate` (App.jsx lines 128–156): returns
the message sent to the relay, or `none` when the send is skipped. It
skips when the WebSocket is not open, and when the fingerprint of the
reported elements equals `lastRemoteFingerprint` (the echo check);
otherwise it sends a `scene-update` carrying the constructed document
(`viewBackgroundColor || "#ffffff"`, `files || {}`). -/
def sendUpdate (st : ClientState) (elements : List Element)
    (viewBackgroundColor : Option String)
    (files : Option (List (String × String))) : Option Msg :=
  if !st.wsOpen then none
  else if sceneFingerprint elements = st.lastRemoteFingerprint then none
  else
    some (Msg.sceneUpdate
      { type := "excalidraw"
        version := 2
        elements := elements
        viewBackgroundColor := viewBackgroundColor.getD "#ffffff"
        files := files.getD [] })

/-! ## The relay server (src/unnamed/part_000) -/

/-- The observable state of the backing file's contents: a JSON text that
parses to a `Document`, or unparseable text.  An absent file is
`Option.none` at the use sites. -/
inductive FileContent
  | parsed (d : Document)
  | garbage
deriving Repr, DecidableEq

/-- The server's mutable state touched by the claims: the backing file
and the `lastWriteFromClient` timestamp (initially 0). -/
structure ServerState where
  file : Option FileContent
  lastWriteFromClient : Nat
deriving Repr, DecidableEq

/-- `DEBOUNCE_MS` from the server (line 43). -/
def DEBOUNCE_MS : Nat := 300

/-- The server's startup initialisation (lines 27–30): if the canvas file
does not exist, write `DEFAULT_CANVAS` to it; otherwise leave it alone. -/
def startupInit (file : Option FileContent) : Option FileContent :=
  match file with
  | none => some (FileContent.parsed DEFAULT_CANVAS)
  | some c => some c

/-- The server's `readCanvas` (lines 32–39): `readFileSync` + `JSON.parse`
inside a try/catch — an absent or unparseable file yields
`JSON.parse(DEFAULT_CANVAS)`; any file that parses is returned as-is.
`readCanvas` performs no write: the backing file is unchanged by a load. -/
def readCanvas (file : Option FileContent) : Document :=
  match file with
  | some (FileContent.parsed d) => d
  | some FileContent.garbage => DEFAULT_CANVAS
  | none => DEFAULT_CANVAS

/-- The server's `writeCanvas` (lines 45–48): records `Date.now()` into
`lastWriteFromClient`, then writes the serialized document to the file. -/
def writeCanvas (_st : ServerState) (now : Nat) (d : Document) : ServerState :=
  { file := some (FileContent.parsed d), lastWriteFromClient := now }

/-- A live WebSocket session as the broadcast loop sees it: its identity
(`client !== excludeSocket` is object identity, modelled by `sid`) and its
transport `readyState` (1 = OPEN = writable). -/
structure Session where
  sid : Nat
  readyState : Nat
deriving Repr, DecidableEq

/-- The server's `broadcast(message, excludeSocket)` (lines 126–132):
for each registered client, send iff it is not the excluded socket and its
`readyState` is 1.  The result lists the deliveries `(sid, message)` that
occur; a non-writable client is skipped without error and without
affecting the other deliveries. -/
def broadcast (clients : List Session) (message : Msg)
    (excludeSocket : Option Nat) : List (Nat × Msg) :=
  clients.filterMap (fun c =>
    if some c.sid ≠ excludeSocket ∧ c.readyState = 1 then
      some (c.sid, message)
    else none)

/-- The file watcher's `change` handler (lines 166–175): if
`Date.now() - lastWriteFromClient < DEBOUNCE_MS + 200`, the change is
treated as the server's own write and ignored; otherwise the canvas is
reloaded from the file and one `scene-update` broadcast with no exclusion
is produced. -/
def watcherOnChange (st : ServerState) (now : Nat) (clients : List Session) :
    List (Nat × Msg) :=
  if now - st.lastWriteFromClient < DEBOUNCE_MS + 200 then []
  else broadcast clients (Msg.sceneUpdate (readCanvas st.file)) none

/-- The per-session `ws.on("message")` handler (lines 141–153): a parsed
`scene-update` message is saved via `writeCanvas` and rebroadcast to the
other clients, excluding the sender; an unparseable or other-typed message
changes nothing.  Returns the new server state and the deliveries. -/
def wsOnMessage (st : ServerState) (now : Nat) (clients : List Session)
    (sender : Nat) (parsed : Option Msg) : ServerState × List (Nat × Msg) :=
  match parsed with
  | some (Msg.sceneUpdate d) =>
      (writeCanvas st now d, broadcast clients (Msg.sceneUpdate d) (some sender))
  | some Msg.exportRequest => (st, [])
  | none => (st, [])

/-- The `PUT /api/canvas` handler (lines 73–77): saves the request body
via `writeCanvas`, then broadcasts a `scene-update` carrying it with no
exclusion, and acknowledges. -/
def putCanvas (st : ServerState) (now : Nat) (clients : List Session)
    (d : Document) : ServerState × List (Nat × Msg) :=
  (writeCanvas st now d, broadcast clients (Msg.sceneUpdate d) none)

/-- The `wss.on("connection")` handler (lines 134–139): on connect the
server reads the canvas and sends exactly one `scene-update` carrying it
directly to the new socket (not a broadcast), before any other traffic. -/
def wsOnConnection (st : ServerState) (newWs : Nat) : List (Nat × Msg) :=
  [(newWs, Msg.sceneUpdate (readCanvas st.file))]

/-! ## The export-PNG handshake (src/unnamed/part_000, lines 84–119)

`pendingExportResolve` is null exactly when the slot is Idle; while a
request is outstanding it holds the resolve closure, which captures the
requesting caller's response object and the `setTimeout` handle armed for
it.  The model tracks `pending = some (caller, timer)` for the slot and
the list of currently armed timers (a `setTimeout` whose handle was
passed to `clearTimeout`, or which already fired, is no longer armed and
can never fire). -/

/-- The export-relay state: `pending` mirrors `pendingExportResolve`
(`some (caller, timer)` iff non-null), `armed` the set of live timers,
each with the caller whose 504 response its callback captured. -/
structure ExportState where
  pending : Option (Nat × Nat)
  armed : List (Nat × Nat)
deriving Repr, DecidableEq

/-- The events the export relay reacts to: a `GET /api/export-png` from
`caller` (allocating timer handle `timer` if it proceeds), a
`POST /api/export-png` delivering `bytes`, and the firing of an armed
timer. -/
inductive ExportEvent
  | request (caller timer : Nat)
  | fulfill (bytes : List Nat)
  | fire (timer : Nat)
deriving Repr, DecidableEq

/-- The observable actions of one event: HTTP responses to the blocked
export caller (409 busy, 504 timeout, the PNG bytes), responses to the
fulfiller (200 ok, 400 no pending request), and the `export-request`
broadcast to the browser. -/
inductive ExportAction
  | respond409 (caller : Nat)
  | respond504 (caller : Nat)
  | respondPng (caller : Nat) (bytes : List Nat)
  | fulfillOk
  | fulfill400
  | broadcastExportRequest
deriving Repr, DecidableEq

/-- One event processed to completion, translated from the three handlers:

* `GET /api/export-png` (lines 86–109): if `pendingExportResolve` is set,
  respond 409 and touch nothing; otherwise arm the 10 s timer, install the
  resolve closure, and broadcast `export-request`.
* `POST /api/export-png` (lines 112–119): if `pendingExportResolve` is
  set, invoke it — which clears its own timer, nulls the slot, and sends
  the PNG to the waiting caller — then acknowledge; otherwise respond 400.
* the timer callback (lines 93–98): it can only run while its timer is
  still armed; it disarms, and if `pendingExportResolve` is set it nulls
  the slot and responds 504 to the caller it captured. -/
def exportStep (s : ExportState) (e : ExportEvent) :
    ExportState × List ExportAction :=
  match e with
  | ExportEvent.request c t =>
      match s.pending with
      | some _ => (s, [ExportAction.respond409 c])
      | none =>
          ({ pending := some (c, t), armed := (t, c) :: s.armed },
            [ExportAction.broadcastExportRequest])
  | ExportEvent.fulfill b =>
      match s.pending with
      | some (c, t) =>
          ({ pending := none, armed := s.armed.filter (fun a => !(a.1 == t)) },
            [ExportAction.respondPng c b, ExportAction.fulfillOk])
      | none => (s, [ExportAction.fulfill400])
  | ExportEvent.fire t =>
      match s.armed.find? (fun a => a.1 == t) with
      | none => (s, [])
      | some a =>
          let s' : ExportState :=
            { s with armed := s.armed.filter (fun x => !(x.1 == t)) }
          match s'.pending with
          | some _ => ({ s' with pending := none }, [ExportAction.respond504 a.2])
          | none => (s', [])

/-- A whole trace of export events processed in order, collecting the
actions. -/
def runEvents (s : ExportState) : List ExportEvent → ExportState × List ExportAction
  | [] => (s, [])
  | e :: es =>
      let r := exportStep s e
      let rest := runEvents r.1 es
      (rest.1, r.2 ++ rest.2)

/-- Reachable-state invariant of the export relay: either the slot is
Idle and no timer is armed, or exactly one request is outstanding and
exactly its timer is armed. -/
def ExportInv (s : ExportState) : Prop :=
  (s.pending = none ∧ s.armed = []) ∨
  (∃ c t, s.pending = some (c, t) ∧ s.armed = [(t, c)])

/-! ## The CLI update and delete commands (src/cli/index.js, lines 211–255)

Each command reads the canvas, transforms it, and (unless it errors out
first) calls `writeCanvas`.  `Except.ok` below means the command wrote
the carried document to the store; `Except.error` means it printed an
error and exited without writing. -/

/-- `canvas.elements.findIndex(e => e.id === id)` followed by replacing
the element at that index: replaces the first element whose `id` matches,
or returns `none` when no element matches. -/
def updateFirst (es : List Element) (targetId : String)
    (f : Element → Element) : Option (List Element) :=
  match es with
  | [] => none
  | e :: rest =>
      if e.id == targetId then some (f e :: rest)
      else (updateFirst rest targetId f).map (fun r => e :: r)

/-- The CLI `update` command (lines 211–234): if no element has the given
id, print "Element not found" and exit without writing; otherwise replace
the first matching element by the spread `{...el, ...updates}` (modelled
by the opaque `patch`) with `version` bumped from the original element's
`version || 0`, a fresh `versionNonce`, and `updated` set to now, then
write the canvas. -/
def updateCommand (canvas : Document) (targetId : String)
    (patch : Element → Element) (now nonce : Nat) : Except String Document :=
  match updateFirst canvas.elements targetId
      (fun el =>
        { patch el with
          version := some ((el.version).getD 0 + 1)
          versionNonce := some nonce
          updated := some now }) with
  | none => Except.error ("Element " ++ targetId ++ " not found")
  | some es => Except.ok { canvas with elements := es }

/-- The CLI `delete` command (lines 236–255): with no ids it prints usage
and exits without writing; otherwise it soft-deletes every element whose
id is in the given set (bumping `version`, setting `updated`), counts the
matches, and writes the canvas back unconditionally — even when the count
is zero. -/
def deleteCommand (canvas : Document) (ids : List String) (now : Nat) :
    Except String (Document × Nat) :=
  if ids.isEmpty then
    Except.error "Usage: drawbridge delete <id> [id...]"
  else
    let newElements := canvas.elements.map (fun el =>
      if ids.contains el.id then
        { el with
          isDeleted := true
          version := some ((el.version).getD 0 + 1)
          updated := some now }
      else el)
    let count := (canvas.elements.filter (fun el => ids.contains el.id)).length
    Except.ok ({ canvas with elements := newElements }, count)

/-- A sample element used to instantiate claims on concrete inputs. -/
def wEl1 : Element :=
  { id := "a", version := some 2, isDeleted := false,
    versionNonce := none, updated := none }

/-- A sample soft-deleted element. -/
def wEl2 : Element :=
  { id := "b", version := some 3, isDeleted := true,
    versionNonce := none, updated := none }

/-- A sample element with the same `(isDeleted, version)` data as `wEl1`
but a different identity. -/
def wEl3 : Element :=
  { id := "c", version := some 2, isDeleted := false,
    versionNonce := some 7, updated := some 1 }

/-- A sample one-element canvas. -/
def exCanvas : Document := { DEFAULT_CANVAS with elements := [wEl1] }

/-! ## Concrete instances -/

/-- `wEl1` after a single version bump. -/
def wEl1b : Element := { wEl1 with version := some 3 }

/-- A client state as created at startup: fingerprint ref "0:0", socket
open, API ready. -/
def wSt : ClientState :=
  { lastRemoteFingerprint := "0:0", wsOpen := true, apiReady := true }

/-- A server state holding `exCanvas` last written at time 1000. -/
def wServerSt : ServerState :=
  { file := some (FileContent.parsed exCanvas), lastWriteFromClient := 1000 }

/-- Three live sessions: 1 and 3 writable, 2 closed (`readyState` 3). -/
def wSessions : List Session :=
  [{ sid := 1, readyState := 1 }, { sid := 2, readyState := 3 },
    { sid := 3, readyState := 1 }]

/-- An export slot with caller 1 outstanding on timer 5. -/
def wExpSt : ExportState := { pending := some (1, 5), armed := [(5, 1)] }

theorem activeCount_cons (e : Element) (r : List Element) :
    activeCount (e :: r) = (if e.isDeleted then 0 else 1) + activeCount r := by
  simp only [activeCount, activeElements, List.filter_cons]
  cases h : e.isDeleted <;> simp [Nat.add_comm]

theorem versionSum_cons (e : Element) (r : List Element) :
    versionSum (e :: r)
      = (if e.isDeleted then 0 else (e.version).getD 0) + versionSum r := by
  simp only [versionSum, activeElements, List.filter_cons]
  cases h : e.isDeleted <;> simp

theorem sceneFingerprint_foldl (elements : List Element) (c s : Nat) :
    elements.foldl
      (fun (acc : Nat × Nat) el =>
        if !el.isDeleted then (acc.1 + 1, acc.2 + (el.version).getD 0)
        else acc)
      (c, s)
    = (c + activeCount elements, s + versionSum elements) := by
  induction elements generalizing c s with
  | nil => simp [activeCount, activeElements, versionSum]
  | cons el rest ih =>
    simp only [List.foldl_cons]
    cases h : el.isDeleted with
    | true =>
      simp only [h, Bool.not_true, Bool.false_eq_true, if_false]
      rw [ih, activeCount_cons, versionSum_cons, h]
      simp
    | false =>
      simp only [h, Bool.not_false, if_true]
      rw [ih, activeCount_cons, versionSum_cons, h]
      simp only [Bool.false_eq_true, if_false, Prod.mk.injEq]
      constructor <;> omega

theorem sceneFingerprint_eq_pair (elements : List Element) :
    sceneFingerprint elements
      = fpString (activeCount elements) (versionSum elements) := by
  unfold sceneFingerprint
  by_cases h : elements.length = 0
  · have he : elements = [] := List.length_eq_zero.mp h
    subst he
    simp only [List.length_nil, if_true]
    decide
  · simp only [h, if_false]
    rw [sceneFingerprint_foldl]
    simp [fpString]

theorem activeCount_fpData (E E' : List Element) (h : fpData E = fpData E') :
    activeCount E = activeCount E' := by
  induction E generalizing E' with
  | nil =>
    cases E' with
    | nil => rfl
    | cons e' r' => simp [fpData] at h
  | cons e r ih =>
    cases E' with
    | nil => simp [fpData] at h
    | cons e' r' =>
      simp only [fpData, List.map_cons, List.cons.injEq, Prod.mk.injEq] at h
      obtain ⟨⟨hd, hv⟩, ht⟩ := h
      simp only [activeCount, activeElements, List.filter_cons, hd]
      by_cases hdel : e'.isDeleted
      · simp only [hdel, Bool.not_true, Bool.false_eq_true, if_false]
        exact ih r' ht
      · simp only [hdel, Bool.not_false, if_true, List.length_cons]
        exact congrArg Nat.succ (ih r' ht)

theorem versionSum_fpData (E E' : List Element) (h : fpData E = fpData E') :
    versionSum E = versionSum E' := by
  induction E generalizing E' with
  | nil =>
    cases E' with
    | nil => rfl
    | cons e' r' => simp [fpData] at h
  | cons e r ih =>
    cases E' with
    | nil => simp [fpData] at h
    | cons e' r' =>
      simp only [fpData, List.map_cons, List.cons.injEq, Prod.mk.injEq] at h
      obtain ⟨⟨hd, hv⟩, ht⟩ := h
      simp only [versionSum, activeElements, List.filter_cons, hd]
      by_cases hdel : e'.isDeleted
      · simp only [hdel, Bool.not_true, Bool.false_eq_true, if_false]
        exact ih r' ht
      · simp only [hdel, Bool.not_false, if_true, List.map_cons, List.sum_cons, hv]
        exact congrArg _ (ih r' ht)

theorem sceneFingerprint_perm (E E' : List Element) (h : E.Perm E') :
    sceneFingerprint E = sceneFingerprint E' := by
  rw [sceneFingerprint_eq_pair, sceneFingerprint_eq_pair]
  have hc : activeCount E = activeCount E' :=
    ((h.filter _).length_eq)
  have hs : versionSum E = versionSum E' :=
    (((h.filter _).map _).sum_eq)
  rw [hc, hs]

/-- Claim C1: for every element sequence `E`, `sceneFingerprint E` is
(the string rendering of) the pair `(activeCount E, versionSum E)` where
`activeCount` counts the elements with `isDeleted` false and `versionSum`
sums `version` (missing counted as 0) over those elements; the function
is deterministic, depends only on the `(isDeleted, version)` pairs of
`E`, and is unchanged by any permutation of `E`. -/
theorem claim_C1_fingerprint (E E' : List Element) :
    sceneFingerprint E = fpString (activeCount E) (versionSum E)
    ∧ (fpData E = fpData E' → sceneFingerprint E = sceneFingerprint E')
    ∧ (E.Perm E' → sceneFingerprint E = sceneFingerprint E') := by
  refine ⟨sceneFingerprint_eq_pair E, ?_, sceneFingerprint_perm E E'⟩
  intro h
  rw [sceneFingerprint_eq_pair, sceneFingerprint_eq_pair,
    activeCount_fpData E E' h, versionSum_fpData E E' h]

/-- Claim C2: when a document `d` is delivered to a working session as a
scene-update, the client records `sceneFingerprint d.elements`; a
subsequent local-change report whose elements have that same fingerprint
is discarded (not sent), while a report whose fingerprint differs (e.g.
by a single version bump) is sent, provided the socket is open. -/
theorem claim_C2_echo_suppression (st : ClientState) (d : Document)
    (E : List Element) (vb : Option String)
    (fs : Option (List (String × String))) (hapi : st.apiReady = true) :
    (onmessage st (Msg.sceneUpdate d)).lastRemoteFingerprint
        = sceneFingerprint d.elements
    ∧ (sceneFingerprint E = sceneFingerprint d.elements →
        sendUpdate (onmessage st (Msg.sceneUpdate d)) E vb fs = none)
    ∧ (st.wsOpen = true →
        sceneFingerprint E ≠ sceneFingerprint d.elements →
        sendUpdate (onmessage st (Msg.sceneUpdate d)) E vb fs
          = some (Msg.sceneUpdate
              { type := "excalidraw"
                version := 2
                elements := E
                viewBackgroundColor := vb.getD "#ffffff"
                files := fs.getD [] })) := by
  refine ⟨?_, ?_, ?_⟩
  · simp [onmessage, hapi]
  · intro hfp
    simp [onmessage, sendUpdate, hapi, hfp]
  · intro hopen hfp
    simp [onmessage, sendUpdate, hapi, hopen, hfp]

theorem broadcast_delivers (clients : List Session) (m : Msg)
    (ex : Option Nat) :
    ∀ c ∈ clients, some c.sid ≠ ex → c.readyState = 1 →
      (c.sid, m) ∈ broadcast clients m ex := by
  intro c hc hne hrs
  apply List.mem_filterMap.mpr
  exact ⟨c, hc, by simp [hne, hrs]⟩

theorem broadcast_excludes (clients : List Session) (m : Msg)
    (ex : Option Nat) :
    ∀ x, ex = some x → ∀ msg, (x, msg) ∉ broadcast clients m ex := by
  intro x hx msg hmem
  obtain ⟨c, hc, hfc⟩ := List.mem_filterMap.mp hmem
  by_cases hcond : some c.sid ≠ ex ∧ c.readyState = 1
  · rw [if_pos hcond] at hfc
    have hsid : c.sid = x := congrArg Prod.fst (Option.some.inj hfc)
    exact hcond.1 (by rw [hx, hsid])
  · rw [if_neg hcond] at hfc
    exact Option.noConfusion hfc

theorem broadcast_skips_nonwritable (clients : List Session) (m : Msg)
    (ex : Option Nat) :
    (clients.map Session.sid).Nodup →
      ∀ c ∈ clients, c.readyState ≠ 1 →
        ∀ msg, (c.sid, msg) ∉ broadcast clients m ex := by
  intro hnd c hc hrs msg hmem
  obtain ⟨c', hc', hfc⟩ := List.mem_filterMap.mp hmem
  by_cases hcond : some c'.sid ≠ ex ∧ c'.readyState = 1
  · rw [if_pos hcond] at hfc
    have hsid : c'.sid = c.sid := congrArg Prod.fst (Option.some.inj hfc)
    have hcc : c' = c := List.inj_on_of_nodup_map hnd hc' hc hsid
    exact hrs (hcc ▸ hcond.2)
  · rw [if_neg hcond] at hfc
    exact Option.noConfusion hfc

/-- Claim C6: `broadcast m exclude` delivers `m` to every registered
session other than the excluded one whose transport is writable
(`readyState = 1`), never delivers to the excluded session, and skips
every non-writable session silently (it receives nothing, while the
other deliveries still occur — the first conjunct holds regardless). -/
theorem claim_C6_broadcast (clients : List Session) (m : Msg)
    (ex : Option Nat) :
    (∀ c ∈ clients, some c.sid ≠ ex → c.readyState = 1 →
        (c.sid, m) ∈ broadcast clients m ex)
    ∧ (∀ x, ex = some x → ∀ msg, (x, msg) ∉ broadcast clients m ex)
    ∧ ((clients.map Session.sid).Nodup →
        ∀ c ∈ clients, c.readyState ≠ 1 →
          ∀ msg, (c.sid, msg) ∉ broadcast clients m ex) :=
  ⟨broadcast_delivers clients m ex, broadcast_excludes clients m ex,
    broadcast_skips_nonwritable clients m ex⟩

/-- Claim C5: a file-change notification arriving while
`now - lastWriteFromClient` is below the quiet window
(`DEBOUNCE_MS + 200 = 500` ms) produces no broadcast; one arriving at or
above the window produces exactly one `scene-update` broadcast carrying
the freshly reloaded document, delivered to every writable session with
no exclusion. -/
theorem claim_C5_file_watch (st : ServerState) (now : Nat)
    (clients : List Session) :
    (now - st.lastWriteFromClient < DEBOUNCE_MS + 200 →
        watcherOnChange st now clients = [])
    ∧ (DEBOUNCE_MS + 200 ≤ now - st.lastWriteFromClient →
        watcherOnChange st now clients
          = clients.filterMap (fun c =>
              if c.readyState = 1 then
                some (c.sid, Msg.sceneUpdate (readCanvas st.file))
              else none)) := by
  constructor
  · intro h
    simp [watcherOnChange, h]
  · intro h
    have hno : ¬ now - st.lastWriteFromClient < DEBOUNCE_MS + 200 :=
      Nat.not_lt.mpr h
    simp only [watcherOnChange, hno, if_false, broadcast]
    apply List.filterMap_congr
    intro c _
    simp

/-- Claim C7: an incoming full-document update is saved to the store and
rebroadcast as a `scene-update` carrying the same document.  A
`scene-update` from a live session is saved and rebroadcast excluding
exactly that sender (the sender receives nothing, every other writable
session receives the document); a `PUT /api/canvas` body is saved and
rebroadcast excluding nobody (every writable session receives it,
including any session with the would-be sender's identity). -/
theorem claim_C7_save_then_broadcast (st : ServerState) (now : Nat)
    (clients : List Session) (sender : Nat) (d : Document) :
    ((wsOnMessage st now clients sender (some (Msg.sceneUpdate d))).1
        = writeCanvas st now d
      ∧ (wsOnMessage st now clients sender (some (Msg.sceneUpdate d))).1.file
        = some (FileContent.parsed d)
      ∧ (wsOnMessage st now clients sender (some (Msg.sceneUpdate d))).2
        = broadcast clients (Msg.sceneUpdate d) (some sender)
      ∧ (∀ msg, (sender, msg)
          ∉ (wsOnMessage st now clients sender (some (Msg.sceneUpdate d))).2)
      ∧ (∀ c ∈ clients, c.sid ≠ sender → c.readyState = 1 →
          (c.sid, Msg.sceneUpdate d)
            ∈ (wsOnMessage st now clients sender (some (Msg.sceneUpdate d))).2))
    ∧ ((putCanvas st now clients d).1 = writeCanvas st now d
      ∧ (putCanvas st now clients d).1.file = some (FileContent.parsed d)
      ∧ (putCanvas st now clients d).2
        = broadcast clients (Msg.sceneUpdate d) none
      ∧ (∀ c ∈ clients, c.readyState = 1 →
          (c.sid, Msg.sceneUpdate d) ∈ (putCanvas st now clients d).2)) := by
  refine ⟨⟨rfl, rfl, rfl, ?_, ?_⟩, rfl, rfl, rfl, ?_⟩
  · intro msg
    exact broadcast_excludes clients (Msg.sceneUpdate d) (some sender)
      sender rfl msg
  · intro c hc hne hrs
    exact broadcast_delivers clients (Msg.sceneUpdate d) (some sender)
      c hc (by simpa using hne) hrs
  · intro c hc hrs
    exact broadcast_delivers clients (Msg.sceneUpdate d) none
      c hc (by simp) hrs

/-- Claim C8 counterexample: the claim says a schema-mismatched file
(`schemaVersion` not matching the relay's value, 2) is replaced by the
default document on load.  The server's `readCanvas` does no such check:
a file that parses to a document with `version = 99` is returned as-is,
not replaced by `DEFAULT_CANVAS`; nor does any load rewrite the file. -/
theorem claim_C8_counterexample :
    readCanvas (some (FileContent.parsed { DEFAULT_CANVAS with version := 99 }))
        = { DEFAULT_CANVAS with version := 99 }
    ∧ ({ DEFAULT_CANVAS with version := 99 } : Document) ≠ DEFAULT_CANVAS := by
  exact ⟨rfl, by decide⟩

/-- Claim C8 (amended): `readCanvas` returns the parsed file contents
whenever the file parses, with no `schemaVersion` check; an absent or
unparseable file yields the in-memory default document, and `readCanvas`
itself never writes — the backing file is initialised with the default
only once at startup, and only when it is absent. -/
theorem claim_C8_load_defaults (d : Document) (c : FileContent) :
    readCanvas none = DEFAULT_CANVAS
    ∧ readCanvas (some FileContent.garbage) = DEFAULT_CANVAS
    ∧ readCanvas (some (FileContent.parsed d)) = d
    ∧ startupInit none = some (FileContent.parsed DEFAULT_CANVAS)
    ∧ startupInit (some c) = some c :=
  ⟨rfl, rfl, rfl, rfl, rfl⟩

/-- Claim C10: on a new connection the relay sends that session, and only
that session, exactly one `scene-update` carrying the current canonical
document loaded from the store, before any other traffic. -/
theorem claim_C10_initial_sync (st : ServerState) (newWs : Nat) :
    wsOnConnection st newWs
        = [(newWs, Msg.sceneUpdate (readCanvas st.file))]
    ∧ (∀ s msg, s ≠ newWs → (s, msg) ∉ wsOnConnection st newWs) := by
  refine ⟨rfl, ?_⟩
  intro s msg hne hmem
  simp only [wsOnConnection, List.mem_singleton, Prod.mk.injEq] at hmem
  exact hne hmem.1

theorem exportInv_step (s : ExportState) (e : ExportEvent)
    (h : ExportInv s) : ExportInv (exportStep s e).1 := by
  rcases h with ⟨hp, ha⟩ | ⟨c, t, hp, ha⟩
  · cases e with
    | request c' t' =>
        right
        exact ⟨c', t', by simp [exportStep, hp, ha]⟩
    | fulfill b => left; simp [exportStep, hp, ha]
    | fire t' => left; simp [exportStep, hp, ha]
  · cases e with
    | request c' t' => right; exact ⟨c, t, by simp [exportStep, hp, ha]⟩
    | fulfill b => left; simp [exportStep, hp, ha]
    | fire t' =>
        by_cases ht : t = t'
        · subst ht; left; simp [exportStep, hp, ha]
        · right
          refine ⟨c, t, ?_, ?_⟩ <;>
            simp [exportStep, hp, ha, List.find?, ht, Ne.symm ht]

/-- Claim C3: at most one pending export request exists; a
`GET /api/export-png` arriving while the slot is not Idle gets the 409
busy response immediately, leaves the state (slot and armed timer)
untouched, and has no effect on how any subsequent trace of events —
hence the outstanding request's eventual outcome — unfolds. -/
theorem claim_C3_single_flight (s : ExportState) (c t : Nat)
    (es : List ExportEvent) (h : s.pending.isSome) :
    exportStep s (ExportEvent.request c t) = (s, [ExportAction.respond409 c])
    ∧ runEvents s (ExportEvent.request c t :: es)
        = ((runEvents s es).1,
            ExportAction.respond409 c :: (runEvents s es).2) := by
  obtain ⟨p, hp⟩ := Option.isSome_iff_exists.mp h
  constructor
  · simp [exportStep, hp]
  · simp [runEvents, exportStep, hp]

/-- Claim C4: an outstanding export request is resolved by exactly one of
fulfill and timeout.  From a reachable state with a request outstanding:
a `POST` delivers exactly its bytes to the blocked caller, acknowledges
the fulfiller, returns the slot to Idle and cancels the timer, so the
timer can no longer fire; if instead the timer fires first, the caller
gets the 504 timeout, the slot returns to Idle, a new request then
succeeds, and any later `POST` gets 400 without touching any caller. -/
theorem claim_C4_fulfill_xor_timeout (s : ExportState) (c t : Nat)
    (b : List Nat) (hinv : ExportInv s) (hp : s.pending = some (c, t)) :
    (exportStep s (ExportEvent.fulfill b)
        = (⟨none, []⟩,
            [ExportAction.respondPng c b, ExportAction.fulfillOk])
      ∧ exportStep (⟨none, []⟩ : ExportState) (ExportEvent.fire t)
        = (⟨none, []⟩, []))
    ∧ (exportStep s (ExportEvent.fire t)
        = (⟨none, []⟩, [ExportAction.respond504 c])
      ∧ (∀ b', exportStep (⟨none, []⟩ : ExportState) (ExportEvent.fulfill b')
          = (⟨none, []⟩, [ExportAction.fulfill400]))
      ∧ (∀ c' t', exportStep (⟨none, []⟩ : ExportState) (ExportEvent.request c' t')
          = (⟨some (c', t'), [(t', c')]⟩,
              [ExportAction.broadcastExportRequest]))) := by
  have ha : s.armed = [(t, c)] := by
    rcases hinv with ⟨hpn, _⟩ | ⟨c', t', hp', ha'⟩
    · rw [hpn] at hp; exact Option.noConfusion hp
    · rw [hp] at hp'
      obtain ⟨hc, ht⟩ := Prod.mk.injEq _ _ _ _ ▸ Option.some.inj hp'
      rw [ha', hc, ht]
  refine ⟨⟨?_, ?_⟩, ?_, ?_, ?_⟩
  · simp [exportStep, hp, ha]
  · simp [exportStep, List.find?]
  · simp [exportStep, hp, ha, List.find?]
  · intro b'
    simp [exportStep]
  · intro c' t'
    simp [exportStep]

theorem updateFirst_eq_none (es : List Element) (i : String)
    (f : Element → Element) (h : ∀ e ∈ es, e.id ≠ i) :
    updateFirst es i f = none := by
  induction es with
  | nil => rfl
  | cons e rest ih =>
    have hne : ¬ (e.id == i) = true := by
      simpa using h e (List.mem_cons_self e rest)
    simp only [updateFirst, hne, if_false]
    rw [ih (fun x hx => h x (List.mem_cons_of_mem e hx))]
    rfl

/-- Claim C9 counterexample: the claim says a delete targeting an unknown
element id is rejected with an error and performs no write.  On the
canvas whose only element has id "a", `delete zzz` instead succeeds,
reports 0 deletions, and writes the (unchanged) document back to the
store. -/
theorem claim_C9_counterexample :
    deleteCommand exCanvas ["zzz"] 100 = Except.ok (exCanvas, 0) := rfl

/-- Claim C9 (amended): an `update` targeting an id not present in the
document is rejected with an error and performs no write; a `delete` in
which no given id matches any element is not an error — it reports 0
deletions and writes the document back with its content unchanged (the
store write still occurs). -/
theorem claim_C9_unknown_id (canvas : Document) (i : String)
    (patch : Element → Element) (now nonce : Nat) (ids : List String) :
    ((∀ e ∈ canvas.elements, e.id ≠ i) →
        updateCommand canvas i patch now nonce
          = Except.error ("Element " ++ i ++ " not found"))
    ∧ (ids ≠ [] → (∀ e ∈ canvas.elements, ids.contains e.id = false) →
        deleteCommand canvas ids now = Except.ok (canvas, 0)) := by
  constructor
  · intro h
    unfold updateCommand
    rw [updateFirst_eq_none canvas.elements i _ h]
  · intro hne h
    unfold deleteCommand
    rw [if_neg (by simpa using hne)]
    have hmap : canvas.elements.map (fun el =>
        if ids.contains el.id then
          { el with
            isDeleted := true
            version := some ((el.version).getD 0 + 1)
            updated := some now }
        else el) = canvas.elements := by
      have hcong : ∀ e ∈ canvas.elements,
          (if ids.contains e.id then
            { e with
              isDeleted := true
              version := some ((e.version).getD 0 + 1)
              updated := some now }
          else e) = e := by
        intro e he
        rw [h e he]
        simp
      calc canvas.elements.map _ = canvas.elements.map id :=
            List.map_congr_left hcong
        _ = canvas.elements := List.map_id canvas.elements
    have hfil : canvas.elements.filter (fun el => ids.contains el.id) = [] :=
      List.filter_eq_nil_iff.mpr (fun e he => by rw [h e he]; simp)
    simp only [hmap, hfil, List.length_nil]

theorem claim_C1_fingerprint_witness :
    sceneFingerprint [wEl1, wEl2]
        = fpString (activeCount [wEl1, wEl2]) (versionSum [wEl1, wEl2])
    ∧ sceneFingerprint [wEl1, wEl2] = sceneFingerprint [wEl3, wEl2]
    ∧ sceneFingerprint [wEl1, wEl2] = sceneFingerprint [wEl2, wEl1] :=
  ⟨(claim_C1_fingerprint [wEl1, wEl2] [wEl2, wEl1]).1,
    (claim_C1_fingerprint [wEl1, wEl2] [wEl3, wEl2]).2.1 (by decide),
    (claim_C1_fingerprint [wEl1, wEl2] [wEl2, wEl1]).2.2
      (List.Perm.swap wEl2 wEl1 [])⟩

theorem claim_C2_echo_suppression_witness :
    (onmessage wSt (Msg.sceneUpdate exCanvas)).lastRemoteFingerprint
        = sceneFingerprint exCanvas.elements
    ∧ sendUpdate (onmessage wSt (Msg.sceneUpdate exCanvas)) [wEl1] none none
        = none
    ∧ sendUpdate (onmessage wSt (Msg.sceneUpdate exCanvas)) [wEl1b] none none
        = some (Msg.sceneUpdate
            { type := "excalidraw"
              version := 2
              elements := [wEl1b]
              viewBackgroundColor := "#ffffff"
              files := [] }) :=
  ⟨(claim_C2_echo_suppression wSt exCanvas [wEl1] none none rfl).1,
    (claim_C2_echo_suppression wSt exCanvas [wEl1] none none rfl).2.1 rfl,
    (claim_C2_echo_suppression wSt exCanvas [wEl1b] none none rfl).2.2
      rfl (by decide)⟩

theorem claim_C3_single_flight_witness :
    exportStep wExpSt (ExportEvent.request 2 6)
        = (wExpSt, [ExportAction.respond409 2])
    ∧ runEvents wExpSt (ExportEvent.request 2 6 :: [ExportEvent.fulfill [9]])
        = ((runEvents wExpSt [ExportEvent.fulfill [9]]).1,
            ExportAction.respond409 2
              :: (runEvents wExpSt [ExportEvent.fulfill [9]]).2) :=
  claim_C3_single_flight wExpSt 2 6 [ExportEvent.fulfill [9]] rfl

theorem claim_C4_fulfill_xor_timeout_witness :
    (exportStep wExpSt (ExportEvent.fulfill [7, 8])
        = (⟨none, []⟩,
            [ExportAction.respondPng 1 [7, 8], ExportAction.fulfillOk])
      ∧ exportStep (⟨none, []⟩ : ExportState) (ExportEvent.fire 5)
        = (⟨none, []⟩, []))
    ∧ (exportStep wExpSt (ExportEvent.fire 5)
        = (⟨none, []⟩, [ExportAction.respond504 1])
      ∧ (∀ b', exportStep (⟨none, []⟩ : ExportState) (ExportEvent.fulfill b')
          = (⟨none, []⟩, [ExportAction.fulfill400]))
      ∧ (∀ c' t',
          exportStep (⟨none, []⟩ : ExportState) (ExportEvent.request c' t')
            = (⟨some (c', t'), [(t', c')]⟩,
                [ExportAction.broadcastExportRequest]))) :=
  claim_C4_fulfill_xor_timeout wExpSt 1 5 [7, 8]
    (Or.inr ⟨1, 5, rfl, rfl⟩) rfl

theorem claim_C5_file_watch_witness :
    watcherOnChange wServerSt 1200 wSessions = []
    ∧ watcherOnChange wServerSt 1500 wSessions
        = wSessions.filterMap (fun c =>
            if c.readyState = 1 then
              some (c.sid, Msg.sceneUpdate (readCanvas wServerSt.file))
            else none) :=
  ⟨(claim_C5_file_watch wServerSt 1200 wSessions).1 (by decide),
    (claim_C5_file_watch wServerSt 1500 wSessions).2 (by decide)⟩

theorem claim_C6_broadcast_witness :
    (1, Msg.exportRequest) ∈ broadcast wSessions Msg.exportRequest (some 3)
    ∧ (3, Msg.exportRequest) ∉ broadcast wSessions Msg.exportRequest (some 3)
    ∧ (2, Msg.exportRequest) ∉ broadcast wSessions Msg.exportRequest (some 3) :=
  ⟨(claim_C6_broadcast wSessions Msg.exportRequest (some 3)).1
      { sid := 1, readyState := 1 } (by decide) (by decide) rfl,
    (claim_C6_broadcast wSessions Msg.exportRequest (some 3)).2.1
      3 rfl Msg.exportRequest,
    (claim_C6_broadcast wSessions Msg.exportRequest (some 3)).2.2
      (by decide) { sid := 2, readyState := 3 } (by decide) (by decide)
      Msg.exportRequest⟩

theorem claim_C7_save_then_broadcast_witness :
    (wsOnMessage wServerSt 2000 wSessions 3
        (some (Msg.sceneUpdate exCanvas))).1
      = writeCanvas wServerSt 2000 exCanvas
    ∧ (3, Msg.sceneUpdate exCanvas)
      ∉ (wsOnMessage wServerSt 2000 wSessions 3
          (some (Msg.sceneUpdate exCanvas))).2
    ∧ (1, Msg.sceneUpdate exCanvas)
      ∈ (wsOnMessage wServerSt 2000 wSessions 3
          (some (Msg.sceneUpdate exCanvas))).2
    ∧ (putCanvas wServerSt 2000 wSessions exCanvas).2
      = broadcast wSessions (Msg.sceneUpdate exCanvas) none
    ∧ (3, Msg.sceneUpdate exCanvas)
      ∈ (putCanvas wServerSt 2000 wSessions exCanvas).2 :=
  ⟨(claim_C7_save_then_broadcast wServerSt 2000 wSessions 3 exCanvas).1.1,
    (claim_C7_save_then_broadcast wServerSt 2000 wSessions 3 exCanvas).1.2.2.2.1
      (Msg.sceneUpdate exCanvas),
    (claim_C7_save_then_broadcast wServerSt 2000 wSessions 3 exCanvas).1.2.2.2.2
      { sid := 1, readyState := 1 } (by decide) (by decide) rfl,
    (claim_C7_save_then_broadcast wServerSt 2000 wSessions 3 exCanvas).2.2.2.1,
    (claim_C7_save_then_broadcast wServerSt 2000 wSessions 3 exCanvas).2.2.2.2
      { sid := 3, readyState := 1 } (by decide) rfl⟩

theorem claim_C9_unknown_id_witness :
    updateCommand exCanvas "zzz" id 100 42
        = Except.error ("Element " ++ "zzz" ++ " not found")
    ∧ deleteCommand exCanvas ["q", "r"] 100 = Except.ok (exCanvas, 0) :=
  ⟨(claim_C9_unknown_id exCanvas "zzz" id 100 42 ["q", "r"]).1 (by decide),
    (claim_C9_unknown_id exCanvas "zzz" id 100 42 ["q", "r"]).2
      (by decide) (by decide)⟩

theorem claim_C10_initial_sync_witness :
    wsOnConnection wServerSt 7
        = [(7, Msg.sceneUpdate (readCanvas wServerSt.file))]
    ∧ (1, Msg.sceneUpdate exCanvas) ∉ wsOnConnection wServerSt 7 :=
  ⟨(claim_C10_initial_sync wServerSt 7).1,
    (claim_C10_initial_sync wServerSt 7).2 1 (Msg.sceneUpdate exCanvas)
      (by decide)⟩

end Drawbridge
